import Mathlib

/-!
Verification development for the UniFi Protect license-plate webhook pipeline
(main.py, bigquery_client.py, gcs_client.py, backfill_detections.py).

The Python sources are shallowly embedded as executable Lean definitions.
Conventions used throughout:
  - A Python dict key that may be missing is an Option field; dict.get with a
    default becomes Option.getD.  A JSON null leaf read through dict.get with a
    default behaves like the default for truthiness tests, so null and absent
    are conflated except where the code distinguishes them (noted in place).
  - Python string truthiness (non-empty) is modelled by comparison with "".
  - datetime values are modelled by the civil fields CivDT (microseconds are
    dropped: every strftime format used by the code drops them too).
  - datetime.fromtimestamp uses the local timezone; the offset is threaded as
    an explicit integer parameter (seconds east of UTC).
  - Network and cloud side effects (GCS uploads, HTTP downloads, the NVR
    client) are threaded as explicit environment records describing each
    attempted operation result, with none meaning that attempt failed.
-/

namespace MenloOaks

/-! ## Python string helpers

These run on the character lists underlying strings so that every claim can
be settled by kernel evaluation on concrete inputs.  Unicode-only behavior
of the Python originals (non-ASCII case mapping, exotic whitespace) is out
of scope: the data handled by this pipeline is ASCII. -/

/-- Whether the first list is an initial segment of the second. -/
def leadsWith : List Char → List Char → Bool
  | [], _ => true
  | _ :: _, [] => false
  | a :: as, b :: bs => a == b && leadsWith as bs

/-- Whether needle occurs as a contiguous subsequence. -/
def containsSeq (needle : List Char) : List Char → Bool
  | [] => leadsWith needle []
  | c :: rest => leadsWith needle (c :: rest) || containsSeq needle rest

/-- Model of the Python substring test needle in hay. -/
def pyIn (needle hay : String) : Bool := containsSeq needle.data hay.data

/-- Model of the Python startswith test. -/
def pyStartsWith (s pre₀ : String) : Bool := leadsWith pre₀.data s.data

/-- Model of str.upper(). -/
def pyUpper (s : String) : String := String.mk (s.data.map Char.toUpper)

/-- Model of str.strip(): drop surrounding whitespace. -/
def pyStrip (s : String) : String :=
  String.mk
    (((s.data.dropWhile Char.isWhitespace).reverse.dropWhile
      Char.isWhitespace).reverse)

/-- Model of value.upper().strip(). -/
def pyNormalize (s : String) : String := pyStrip (pyUpper s)

/-- Truthiness of an optional string field (absent and empty are both falsy). -/
def strT (s : Option String) : Bool := (s.getD "") != ""

/-! ## Civil date-time values -/

/-- A civil (wall-clock) date-time at second granularity, the shape every
strftime format used by the code observes. -/
structure CivDT where
  year : Nat
  month : Nat
  day : Nat
  hour : Nat
  minute : Nat
  second : Nat
deriving DecidableEq

/-- Gregorian leap-year test. -/
def isLeap (y : Nat) : Bool := (y % 4 == 0 && y % 100 != 0) || y % 400 == 0

/-- Number of days in a month of a given year. -/
def daysInMonth (y m : Nat) : Nat :=
  if m = 2 then (if isLeap y then 29 else 28)
  else if m = 4 ∨ m = 6 ∨ m = 9 ∨ m = 11 then 30
  else 31

/-- The field ranges accepted by the datetime constructor (year 1..9999). -/
def CivOk (y mo dy hh mi ss : Nat) : Prop :=
  1 ≤ y ∧ y ≤ 9999 ∧ 1 ≤ mo ∧ mo ≤ 12 ∧ 1 ≤ dy ∧ dy ≤ daysInMonth y mo ∧
    hh ≤ 23 ∧ mi ≤ 59 ∧ ss ≤ 59

instance (y mo dy hh mi ss : Nat) : Decidable (CivOk y mo dy hh mi ss) := by
  unfold CivOk; infer_instance

/-- A CivDT whose fields a real datetime object can carry. -/
def ValidDT (d : CivDT) : Prop :=
  CivOk d.year d.month d.day d.hour d.minute d.second

instance (d : CivDT) : Decidable (ValidDT d) := by
  unfold ValidDT; infer_instance

/-- Civil date from a count of days since 1970-01-01 (Gregorian, proleptic). -/
def civilFromDays (z0 : Int) : Int × Nat × Nat :=
  let z := z0 + 719468
  let era := z.fdiv 146097
  let doe := (z - era * 146097).toNat
  let yoe := (doe - doe / 1460 + doe / 36524 - doe / 146096) / 365
  let y := (yoe : Int) + era * 400
  let doy := doe - (365 * yoe + yoe / 4 - yoe / 100)
  let mp := (5 * doy + 2) / 153
  let d := doy - (153 * mp + 2) / 5 + 1
  let m := if mp < 10 then mp + 3 else mp - 9
  (if m ≤ 2 then y + 1 else y, m, d)

/-- Model of datetime.fromtimestamp: epoch seconds to local civil time, where
tz is the local offset in seconds east of UTC.  Returns none when the result
falls outside year 1..9999 (the constructor raises there, and the caller of
every use in this code catches and discards). -/
def civilFromEpoch (tz : Int) (s : Int) : Option CivDT :=
  let t := s + tz
  let days := t.fdiv 86400
  let sod := (t.emod 86400).toNat
  let ymd := civilFromDays days
  if 1 ≤ ymd.1 ∧ ymd.1 ≤ 9999 then
    some ⟨ymd.1.toNat, ymd.2.1, ymd.2.2, sod / 3600, sod / 60 % 60, sod % 60⟩
  else none

/-! ## Formatting (strftime / isoformat models) -/

/-- The decimal digit character for n % 10. -/
def digitChar (n : Nat) : Char := Char.ofNat (48 + n % 10)

/-- Two zero-padded decimal digits (the %02d fields of strftime). -/
def pad2L (n : Nat) : List Char := [digitChar (n / 10), digitChar n]

/-- Four zero-padded decimal digits (the %Y field; years here are ≤ 9999). -/
def pad4L (n : Nat) : List Char :=
  [digitChar (n / 1000), digitChar (n / 100), digitChar (n / 10), digitChar n]

/-- strftime with format %Y-%m-%d %H:%M:%S, the BigQuery DATETIME shape. -/
def fmtSql (d : CivDT) : String :=
  String.mk (pad4L d.year ++ '-' :: pad2L d.month ++ '-' :: pad2L d.day ++
    ' ' :: pad2L d.hour ++ ':' :: pad2L d.minute ++ ':' :: pad2L d.second)

/-- Model of datetime.isoformat() for a whole-second value. -/
def isoFormat (d : CivDT) : String :=
  String.mk (pad4L d.year ++ '-' :: pad2L d.month ++ '-' :: pad2L d.day ++
    'T' :: pad2L d.hour ++ ':' :: pad2L d.minute ++ ':' :: pad2L d.second)

/-! ## Parsing (datetime.fromisoformat model) -/

/-- Numeric value of a decimal digit character. -/
def digitVal? (c : Char) : Option Nat :=
  if c.isDigit then some (c.toNat - 48) else none

/-- Accepts a trailing ±HH:MM utc-offset, or nothing. -/
def acceptOffset : List Char → Bool
  | [] => true
  | [s, h1, h2, ':', m1, m2] =>
    (s = '+' || s = '-') && h1.isDigit && h2.isDigit && m1.isDigit && m2.isDigit
  | _ => false

/-- Accepts what may follow the seconds field: an optional fractional part
followed by an optional utc-offset. -/
def acceptTail (l : List Char) : Bool :=
  match l with
  | '.' :: rest =>
    (rest.takeWhile Char.isDigit).length != 0 &&
      acceptOffset (rest.dropWhile Char.isDigit)
  | l => acceptOffset l

/-- Parses the optional time-of-day part: empty means midnight; otherwise a
separator (T or space) then HH:MM:SS with optional fraction and offset. -/
def parseTimePart : List Char → Option (Nat × Nat × Nat)
  | [] => some (0, 0, 0)
  | sep :: h1 :: h2 :: ':' :: m1 :: m2 :: ':' :: s1 :: s2 :: rest =>
    if sep = 'T' ∨ sep = ' ' then
      match digitVal? h1, digitVal? h2, digitVal? m1, digitVal? m2,
          digitVal? s1, digitVal? s2 with
      | some a, some b, some c, some d, some e, some f =>
        if acceptTail rest then some (10 * a + b, 10 * c + d, 10 * e + f)
        else none
      | _, _, _, _, _, _ => none
    else none
  | _ => none

/-- Model of datetime.fromisoformat on the strings this pipeline feeds it:
YYYY-MM-DD, optionally followed by a time-of-day.  Returns the civil fields
as written (an attached offset is validated but not applied: strftime on an
aware datetime prints the stored wall-clock fields). -/
def fromIsoList : List Char → Option CivDT
  | y1 :: y2 :: y3 :: y4 :: '-' :: m1 :: m2 :: '-' :: d1 :: d2 :: rest =>
    match digitVal? y1, digitVal? y2, digitVal? y3, digitVal? y4,
        digitVal? m1, digitVal? m2, digitVal? d1, digitVal? d2 with
    | some a, some b, some c, some d, some e, some f, some g, some h =>
      let y := 1000 * a + 100 * b + 10 * c + d
      let mo := 10 * e + f
      let dy := 10 * g + h
      match parseTimePart rest with
      | some t =>
        if CivOk y mo dy t.1 t.2.1 t.2.2 then some ⟨y, mo, dy, t.1, t.2.1, t.2.2⟩
        else none
      | none => none
    | _, _, _, _, _, _, _, _ => none
  | _ => none

/-- The s.replace("Z", "+00:00") preprocessing (Z is a single character, so
the substring replacement is a per-character map). -/
def replZ (l : List Char) : List Char :=
  l.flatMap fun c => if c = 'Z' then ['+', '0', '0', ':', '0', '0'] else [c]

/-- Model of datetime.fromisoformat(s.replace("Z", "+00:00")). -/
def pyFromIso (s : String) : Option CivDT := fromIsoList (replZ s.data)

/-! ## Timestamp-like Python values

The timestamp fields flowing into BigQueryClient._parse_timestamp can be a
missing value / None, a numeric Unix timestamp, an ISO string, or a datetime
object (the backfill path).  Floats only reach it as whole-numbered epoch
values in this pipeline, so numerics are carried as Int. -/

inductive PyTime where
  | pynone
  | pyint (n : Int)
  | pystr (s : String)
  | pydt (d : CivDT)
deriving DecidableEq

/-- Python truthiness of a timestamp-like value: None, 0 and "" are falsy;
datetime objects are always truthy. -/
def PyTime.truthy : PyTime → Bool
  | .pynone => false
  | .pyint n => n != 0
  | .pystr s => s != ""
  | .pydt _ => true

/-! ## The webhook payload data model

Typed image of the JSON fields the pipeline reads.  Dict keys the code never
touches are not represented; the empty payload (all fields absent) models the
empty JSON object.  Keys of sub-objects follow the same Option convention. -/

/-- The trigger.group sub-object. -/
structure TriggerGroup where
  name : Option String
deriving DecidableEq

/-- One entry of alarm.triggers. -/
structure Trigger where
  key : Option String
  value : Option String
  timestamp : Option Int
  device : Option String
  eventId : Option String
  zones : Option (List (String × List Nat))
  group : Option TriggerGroup
deriving DecidableEq

/-- The alarm sub-object. -/
structure Alarm where
  triggers : Option (List Trigger)
  thumbnail : Option String
deriving DecidableEq

/-- A val/confidence pair inside detected-thumbnail attributes. -/
structure VehicleAttr where
  val : Option String
  confidence : Option Rat
deriving DecidableEq

/-- The attributes sub-object of a detected thumbnail.  none models an absent
or empty (hence falsy) attributes dict; the same convention applies to its
own sub-objects. -/
structure ThumbAttributes where
  vehicle_type : Option VehicleAttr
  color : Option VehicleAttr
deriving DecidableEq

/-- One entry of metadata.detected_thumbnails. -/
structure DetectedThumbnail where
  type : Option String
  name : Option String
  clock_best_wall : Option Int
  cropped_id : Option String
  attributes : Option ThumbAttributes
deriving DecidableEq

/-- The metadata sub-object. -/
structure Metadata where
  detected_thumbnails : Option (List DetectedThumbnail)
deriving DecidableEq

/-- The camera sub-object. -/
structure CameraCtx where
  id : Option String
  name : Option String
  location : Option String
deriving DecidableEq

/-- The event sub-object. -/
structure EventCtx where
  id : Option String
  start : Option PyTime
deriving DecidableEq

/-- The snapshot sub-object. -/
structure SnapshotCtx where
  url : Option String
  width : Option Int
  height : Option Int
deriving DecidableEq

/-- The location sub-object. -/
structure LocationCtx where
  lat : Option Rat
  lng : Option Rat
deriving DecidableEq

/-- A webhook payload, restricted to the keys the pipeline reads.  metadata
with value none covers both an absent and an empty (falsy) metadata dict. -/
structure Payload where
  alarm : Option Alarm
  type : Option String
  metadata : Option Metadata
  camera : Option CameraCtx
  event : Option EventCtx
  snapshot : Option SnapshotCtx
  location : Option LocationCtx
  timestamp : Option Int
deriving DecidableEq

/-- The empty JSON object as a payload. -/
def emptyPayload : Payload :=
  { alarm := none, type := none, metadata := none, camera := none,
    event := none, snapshot := none, location := none, timestamp := none }

/-! ## Extraction (main.py) -/

/-- One raw per-plate tuple as built by the extractors.  Both extractors
always store the confidence key, so a none here models a stored Python None
(the smart-detection branch), never an absent key. -/
structure PlateInfo where
  plate_number : String
  timestamp : PyTime
  device_id : Option String
  event_id : Option String
  detection_type : Option String
  zones : Option (List (String × List Nat))
  confidence : Option Rat
  group_name : Option String
  cropped_id : Option String
  vehicle_type : Option (String × Rat)
  vehicle_color : Option (String × Rat)
deriving DecidableEq

/-- The dict returned by a successful extraction. -/
structure ExtractResult where
  license_plates : List PlateInfo
  total_plates : Nat
deriving DecidableEq

/-- The plate tuple built from a trigger that directly carries a value
(main.py, _extract_plate_data_from_alarm). -/
def directPlateInfo (t : Trigger) : PlateInfo :=
  { plate_number := pyNormalize (t.value.getD "")
    timestamp := match t.timestamp with | some n => .pyint n | none => .pynone
    device_id := some (t.device.getD "")
    event_id := some (t.eventId.getD "")
    detection_type := some (t.key.getD "")
    zones := some (t.zones.getD [])
    confidence := some (Rat.divInt 95 100)
    group_name :=
      match t.group with
      | some g => if strT g.name then some (g.name.getD "") else none
      | none => none
    cropped_id := none
    vehicle_type := none
    vehicle_color := none }

/-- The plate tuple built from a sibling license-plate trigger found while
resolving a bare vehicle trigger (main.py,
_extract_embedded_plate_data_from_webhook). -/
def embeddedPlateInfo (t other : Trigger) : PlateInfo :=
  { plate_number := pyNormalize (other.value.getD "")
    timestamp := match other.timestamp with | some n => .pyint n | none => .pynone
    device_id := some (other.device.getD (t.device.getD ""))
    event_id := some (other.eventId.getD (t.eventId.getD ""))
    detection_type := some (other.key.getD "")
    zones := some ((other.zones.getD (t.zones.getD [])))
    confidence := some (Rat.divInt 95 100)
    group_name := none
    cropped_id := none
    vehicle_type := none
    vehicle_color := none }

/-- The sibling predicate of the embedded search: key contains
license_plate and the value is truthy. -/
def isLpValued (t : Trigger) : Bool :=
  pyIn "license_plate" (t.key.getD "") && strT t.value

/-- Model of _extract_embedded_plate_data_from_webhook restricted to its
observable output: every sibling trigger distinct from the vehicle trigger
that satisfies isLpValued yields a tuple.  (The placeholder branch logs and
produces nothing.) -/
def embeddedPlates (triggers : List Trigger) (t : Trigger) : List PlateInfo :=
  ((triggers.filter fun o => o ≠ t).filter isLpValued).map (embeddedPlateInfo t)

/-- The tuples one trigger contributes in the loop of
_extract_plate_data_from_alarm. -/
def alarmContrib (triggers : List Trigger) (t : Trigger) : List PlateInfo :=
  let key := t.key.getD ""
  if key != "" && (pyIn "license_plate" key || key == "vehicle") then
    if strT t.value then [directPlateInfo t]
    else if strT t.eventId && key == "vehicle" then embeddedPlates triggers t
    else []
  else []

/-- All tuples produced from a trigger list. -/
def alarmPlatesList (triggers : List Trigger) : List PlateInfo :=
  triggers.flatMap (alarmContrib triggers)

/-- Model of _extract_plate_data_from_alarm (main.py). -/
def _extract_plate_data_from_alarm (w : Payload) : Option ExtractResult :=
  let alarm := w.alarm.getD { triggers := none, thumbnail := none }
  let triggers := alarm.triggers.getD []
  if triggers.isEmpty then none
  else
    let plates := alarmPlatesList triggers
    if plates.isEmpty then none
    else some { license_plates := plates, total_plates := plates.length }

/-- The tuple built from one detected thumbnail, if it is a plate source
(main.py, _extract_plate_data_from_smart_detection). -/
def smartPlateInfo? (th : DetectedThumbnail) : Option PlateInfo :=
  if th.type == some "vehicle" && strT th.name then
    some
      { plate_number := pyNormalize (th.name.getD "")
        timestamp :=
          match th.clock_best_wall with | some n => .pyint n | none => .pynone
        device_id := none
        event_id := none
        detection_type := none
        zones := none
        confidence := none
        group_name := none
        cropped_id := some (th.cropped_id.getD "")
        vehicle_type :=
          match th.attributes with
          | some a =>
            match a.vehicle_type with
            | some v => some (v.val.getD "", v.confidence.getD 0)
            | none => none
          | none => none
        vehicle_color :=
          match th.attributes with
          | some a =>
            match a.color with
            | some c => some (c.val.getD "", c.confidence.getD 0)
            | none => none
          | none => none }
  else none

/-- Model of _extract_plate_data_from_smart_detection (main.py). -/
def _extract_plate_data_from_smart_detection (w : Payload) : Option ExtractResult :=
  match w.metadata with
  | none => none
  | some m =>
    let dts := m.detected_thumbnails.getD []
    if dts.isEmpty then none
    else
      let plates := dts.filterMap smartPlateInfo?
      if plates.isEmpty then none
      else some { license_plates := plates, total_plates := plates.length }

/-- The payload formats the pipeline distinguishes. -/
inductive DetectionFormat where
  | alarmTrigger
  | smartDetectionThumbnail
  | unrecognized
deriving DecidableEq

/-- The branch selection performed inline by extract_plate_data (main.py):
the alarm branch is taken when the alarm key exists and carries a triggers
key (regardless of the triggers value); otherwise the smart-detection branch
when the top-level type equals smart_detection; otherwise unrecognized. -/
def classifyFormat (w : Payload) : DetectionFormat :=
  match w.alarm with
  | some a =>
    if a.triggers.isSome then .alarmTrigger
    else if w.type.getD "" == "smart_detection" then .smartDetectionThumbnail
    else .unrecognized
  | none =>
    if w.type.getD "" == "smart_detection" then .smartDetectionThumbnail
    else .unrecognized

/-- Model of extract_plate_data (main.py). -/
def extract_plate_data (w : Payload) : Option ExtractResult :=
  match classifyFormat w with
  | .alarmTrigger => _extract_plate_data_from_alarm w
  | .smartDetectionThumbnail => _extract_plate_data_from_smart_detection w
  | .unrecognized => none

/-! ## json.dumps model

Serialization of the typed payload back to JSON text, used by the enricher
for the raw_detection_data field.  Key order follows the declared field
order (the real dict preserves arrival order; the claims settled here never
compare two serializations of differently-ordered dicts).  String escaping
is omitted: the payloads considered contain no characters needing escapes.
Rationals print as num/den when not integral; the pipeline only serializes
payloads, in which confidences are plain JSON numbers, and no claim compares
serialized rational text. -/

/-- A JSON string literal. -/
def jstr (s : String) : String := "\"" ++ s ++ "\""

/-- A JSON array from rendered elements. -/
def jlist (xs : List String) : String :=
  "[" ++ String.intercalate ", " xs ++ "]"

/-- A JSON object from rendered present fields. -/
def jobj (fs : List (List String)) : String :=
  "\x7b" ++ String.intercalate ", " fs.flatten ++ "\x7d"

/-- A field that is present only when its value is. -/
def jfield (k : String) (v : Option String) : List String :=
  match v with
  | some s => [jstr k ++ ": " ++ s]
  | none => []

/-- Rendered rational (see section comment on fidelity). -/
def jrat (q : Rat) : String :=
  if q.den = 1 then toString q.num
  else toString q.num ++ "/" ++ toString q.den

/-- Rendered timestamp-like value.  A datetime object is not JSON
serializable in Python; it cannot occur in a payload parsed from a webhook
body, and is rendered as its isoformat only for totality. -/
def jsonPyTime : PyTime → String
  | .pynone => "null"
  | .pyint n => toString n
  | .pystr s => jstr s
  | .pydt d => jstr (isoFormat d)

/-- Rendered zones object. -/
def jsonZones (zs : List (String × List Nat)) : String :=
  "\x7b" ++ String.intercalate ", "
    (zs.map fun p => jstr p.1 ++ ": " ++ jlist (p.2.map toString)) ++ "\x7d"

/-- Rendered trigger object. -/
def jsonTrigger (t : Trigger) : String :=
  jobj
    [ jfield "key" (t.key.map jstr)
    , jfield "value" (t.value.map jstr)
    , jfield "timestamp" (t.timestamp.map toString)
    , jfield "device" (t.device.map jstr)
    , jfield "eventId" (t.eventId.map jstr)
    , jfield "zones" (t.zones.map jsonZones)
    , jfield "group" (t.group.map fun g => jobj [jfield "name" (g.name.map jstr)]) ]

/-- Rendered val/confidence attribute. -/
def jsonVehicleAttr (v : VehicleAttr) : String :=
  jobj [jfield "val" (v.val.map jstr), jfield "confidence" (v.confidence.map jrat)]

/-- Rendered detected-thumbnail object. -/
def jsonDetectedThumbnail (th : DetectedThumbnail) : String :=
  jobj
    [ jfield "type" (th.type.map jstr)
    , jfield "name" (th.name.map jstr)
    , jfield "clock_best_wall" (th.clock_best_wall.map toString)
    , jfield "cropped_id" (th.cropped_id.map jstr)
    , jfield "attributes" (th.attributes.map fun a =>
        jobj
          [ jfield "vehicle_type" (a.vehicle_type.map jsonVehicleAttr)
          , jfield "color" (a.color.map jsonVehicleAttr) ]) ]

/-- Model of json.dumps(webhook_data) over the typed payload. -/
def json_dumps (w : Payload) : String :=
  jobj
    [ jfield "alarm" (w.alarm.map fun a =>
        jobj
          [ jfield "triggers" (a.triggers.map fun ts => jlist (ts.map jsonTrigger))
          , jfield "thumbnail" (a.thumbnail.map jstr) ])
    , jfield "type" (w.type.map jstr)
    , jfield "metadata" (w.metadata.map fun m =>
        jobj [jfield "detected_thumbnails"
          (m.detected_thumbnails.map fun l => jlist (l.map jsonDetectedThumbnail))])
    , jfield "camera" (w.camera.map fun c =>
        jobj
          [ jfield "id" (c.id.map jstr)
          , jfield "name" (c.name.map jstr)
          , jfield "location" (c.location.map jstr) ])
    , jfield "event" (w.event.map fun ev =>
        jobj
          [ jfield "id" (ev.id.map jstr)
          , jfield "start" (ev.start.map jsonPyTime) ])
    , jfield "snapshot" (w.snapshot.map fun s =>
        jobj
          [ jfield "url" (s.url.map jstr)
          , jfield "width" (s.width.map toString)
          , jfield "height" (s.height.map toString) ])
    , jfield "location" (w.location.map fun l =>
        jobj
          [ jfield "lat" (l.lat.map jrat)
          , jfield "lng" (l.lng.map jrat) ])
    , jfield "timestamp" (w.timestamp.map toString) ]

/-! ## Context enrichment (main.py, enrich_individual_plate_data) -/

/-- The enriched per-plate dict built by enrich_individual_plate_data, plus
the thumbnail fields that enriched.update(thumbnail_result) may merge in
afterwards (absent until then).  The confidence key is always present in the
tuple (see PlateInfo), so the dict.get default 0.95 at the confidence line
is unreachable and the stored value – possibly Python None – is copied. -/
structure Enriched where
  plate_number : String
  confidence : Option Rat
  cropped_id : String
  plate_detection_timestamp : PyTime
  vehicle_type : Option String
  vehicle_type_confidence : Option Rat
  vehicle_color : Option String
  vehicle_color_confidence : Option Rat
  device_id : String
  detection_type : Option String
  detection_timestamp : String
  camera_id : String
  camera_name : String
  camera_location : String
  event_id : String
  event_timestamp : PyTime
  snapshot_url : Option String
  image_width : Option Int
  image_height : Option Int
  latitude : Option Rat
  longitude : Option Rat
  processed_by : String
  processing_timestamp : String
  raw_detection_data : String
  thumbnail_gcs_path : Option String
  thumbnail_public_url : Option String
  thumbnail_filename : Option String
  thumbnail_size_bytes : Option Nat
  thumbnail_content_type : Option String
  thumbnail_upload_timestamp : Option String
  cropped_thumbnail_gcs_path : Option String
  cropped_thumbnail_public_url : Option String
  cropped_thumbnail_filename : Option String
  cropped_thumbnail_size_bytes : Option Nat
deriving DecidableEq

/-- Model of enrich_individual_plate_data (main.py).  now stands for the
value of datetime.utcnow() during the call (the function calls it twice a
few microseconds apart; both calls are modelled by the same whole-second
value, which every strftime shape used downstream observes). -/
def enrich_individual_plate_data (pi : PlateInfo) (w : Payload) (now : CivDT) :
    Enriched :=
  let cameraId0 := (w.camera.map fun c => c.id.getD "").getD ""
  let eventId0 := (w.event.map fun ev => ev.id.getD "").getD ""
  { plate_number := pi.plate_number
    confidence := pi.confidence
    cropped_id := pi.cropped_id.getD ""
    plate_detection_timestamp := pi.timestamp
    vehicle_type := pi.vehicle_type.map Prod.fst
    vehicle_type_confidence := pi.vehicle_type.map Prod.snd
    vehicle_color := pi.vehicle_color.map Prod.fst
    vehicle_color_confidence := pi.vehicle_color.map Prod.snd
    device_id := pi.device_id.getD ""
    detection_type := pi.detection_type
    detection_timestamp := isoFormat now
    camera_id :=
      if cameraId0 == "" && strT pi.device_id then pi.device_id.getD ""
      else cameraId0
    camera_name := (w.camera.map fun c => c.name.getD "").getD ""
    camera_location := (w.camera.map fun c => c.location.getD "").getD ""
    event_id :=
      if eventId0 == "" && strT pi.event_id then pi.event_id.getD ""
      else eventId0
    event_timestamp := (w.event.map fun ev => ev.start.getD (.pystr "")).getD (.pystr "")
    snapshot_url := w.snapshot.map fun s => s.url.getD ""
    image_width := w.snapshot.map fun s => s.width.getD 0
    image_height := w.snapshot.map fun s => s.height.getD 0
    latitude := w.location.map fun l => l.lat.getD 0
    longitude := w.location.map fun l => l.lng.getD 0
    processed_by := "unifi-protect-cloud-function"
    processing_timestamp := isoFormat now
    raw_detection_data :=
      if w = emptyPayload then "\x7b\x7d" else json_dumps w
    thumbnail_gcs_path := none
    thumbnail_public_url := none
    thumbnail_filename := none
    thumbnail_size_bytes := none
    thumbnail_content_type := none
    thumbnail_upload_timestamp := none
    cropped_thumbnail_gcs_path := none
    cropped_thumbnail_public_url := none
    cropped_thumbnail_filename := none
    cropped_thumbnail_size_bytes := none }

/-! ## Sink writer (bigquery_client.py) -/

/-- The one float coercion in _prepare_row_data applied to a value that can
be a stored Python None: float(None) raises TypeError. -/
inductive PyErr where
  | floatOfNone
deriving DecidableEq

/-- str(e) for the modelled exception. -/
def pyErrStr : PyErr → String
  | .floatOfNone => "float() argument must be a string or a real number, not NoneType"

/-- float(x) on the stored confidence value. -/
def pyFloat : Option Rat → Except PyErr Rat
  | some q => .ok q
  | none => .error .floatOfNone

/-- Model of BigQueryClient._parse_timestamp.  tz is the local offset used
by datetime.fromtimestamp.  The leading truthiness guard sends None, 0 and
the empty string to None; a numeric value above 9999999999 is divided by
1000 (milliseconds), strings go through fromisoformat, and any conversion
failure yields None.  The source divides by 1000.0 in floating point and
strftime drops the sub-second part; over the range datetime can represent
that agrees with the floor division used here. -/
def _parse_timestamp (tz : Int) (v : PyTime) : Option String :=
  if ¬ v.truthy then none
  else
    match v with
    | .pynone => none
    | .pydt d => some (fmtSql d)
    | .pyint n =>
      (civilFromEpoch tz (if n > 9999999999 then n.fdiv 1000 else n)).map fmtSql
    | .pystr s => (pyFromIso s).map fmtSql

/-- A BigQuery row as assembled by _prepare_row_data. -/
structure Row where
  record_id : String
  plate_number : String
  confidence : Rat
  cropped_id : String
  detection_timestamp : Option String
  plate_detection_timestamp : Option String
  processing_timestamp : Option String
  event_timestamp : Option String
  vehicle_type : String
  vehicle_type_confidence : Option Rat
  vehicle_color : String
  vehicle_color_confidence : Option Rat
  device_id : String
  camera_id : String
  camera_name : String
  camera_location : String
  event_id : String
  latitude : Rat
  longitude : Rat
  snapshot_url : String
  image_width : Int
  image_height : Int
  thumbnail_gcs_path : String
  thumbnail_public_url : String
  thumbnail_filename : String
  thumbnail_size_bytes : Option Nat
  thumbnail_content_type : String
  thumbnail_upload_timestamp : Option String
  cropped_thumbnail_gcs_path : String
  cropped_thumbnail_public_url : String
  cropped_thumbnail_filename : String
  cropped_thumbnail_size_bytes : Option Nat
  detection_box_x : Rat
  detection_box_y : Rat
  detection_box_width : Rat
  detection_box_height : Rat
  processed_by : String
  raw_detection_data : String
deriving DecidableEq

/-- Model of BigQueryClient._prepare_row_data on an enriched webhook dict.
Notes traced against the source:
  - confidence: the key is always present (see Enriched), so the 0.0 default
    is unreachable and float() is applied to the stored value, raising
    TypeError when that value is None.
  - vehicle_*_confidence: the enricher only ever stores non-None numbers, so
    the None-guard reduces to copying the optional value through.
  - thumbnail/cropped size fields: guarded by truthiness, so a stored 0
    becomes None.
  - detection_box: the enricher never stores this key, so every coordinate
    is the 0.0 default.
  - raw_detection_data: the source reads the key raw_detection, which no
    enriched dict ever contains (the enricher stores raw_detection_data),
    so the field is always str of the empty-dict default. -/
def _prepare_row_data (tz : Int) (record_id : String) (e : Enriched) :
    Except PyErr Row :=
  match pyFloat e.confidence with
  | .error err => .error err
  | .ok conf => .ok
    { record_id := record_id
      plate_number := pyUpper e.plate_number
      confidence := conf
      cropped_id := e.cropped_id
      detection_timestamp := _parse_timestamp tz (.pystr e.detection_timestamp)
      plate_detection_timestamp := _parse_timestamp tz e.plate_detection_timestamp
      processing_timestamp := _parse_timestamp tz (.pystr e.processing_timestamp)
      event_timestamp := _parse_timestamp tz e.event_timestamp
      vehicle_type := e.vehicle_type.getD ""
      vehicle_type_confidence := e.vehicle_type_confidence
      vehicle_color := e.vehicle_color.getD ""
      vehicle_color_confidence := e.vehicle_color_confidence
      device_id := e.device_id
      camera_id := e.camera_id
      camera_name := e.camera_name
      camera_location := e.camera_location
      event_id := e.event_id
      latitude := e.latitude.getD 0
      longitude := e.longitude.getD 0
      snapshot_url := e.snapshot_url.getD ""
      image_width := e.image_width.getD 0
      image_height := e.image_height.getD 0
      thumbnail_gcs_path := e.thumbnail_gcs_path.getD ""
      thumbnail_public_url := e.thumbnail_public_url.getD ""
      thumbnail_filename := e.thumbnail_filename.getD ""
      thumbnail_size_bytes :=
        e.thumbnail_size_bytes.bind fun n => if n = 0 then none else some n
      thumbnail_content_type := e.thumbnail_content_type.getD ""
      thumbnail_upload_timestamp :=
        _parse_timestamp tz
          (match e.thumbnail_upload_timestamp with
           | some s => .pystr s
           | none => .pynone)
      cropped_thumbnail_gcs_path := e.cropped_thumbnail_gcs_path.getD ""
      cropped_thumbnail_public_url := e.cropped_thumbnail_public_url.getD ""
      cropped_thumbnail_filename := e.cropped_thumbnail_filename.getD ""
      cropped_thumbnail_size_bytes :=
        e.cropped_thumbnail_size_bytes.bind fun n => if n = 0 then none else some n
      detection_box_x := 0
      detection_box_y := 0
      detection_box_width := 0
      detection_box_height := 0
      processed_by := e.processed_by
      raw_detection_data := "\x7b\x7d" }

/-! ## Thumbnail pipeline (main.py, process_thumbnails_for_plate)

External effects are described by an environment record: each field holds
the outcome the corresponding network/storage attempt would report, with
none covering every failure mode (malformed data URL piece, download error,
oversize, upload error) since the code collapses all of them into skipping
the slot update. -/

/-- Which source filled an artifact slot. -/
inductive ThumbSource where
  | alarmThumbnail
  | eventSnapshot
  | cropUrl
  | generic (ttype : String)
deriving DecidableEq

/-- The fields of a successful upload_thumbnail /
download_and_upload_from_url result that the caller copies. -/
structure UploadOk where
  gcs_path : String
  public_url : String
  filename : String
  size_bytes : Nat
  content_type : String
  upload_timestamp : String
deriving DecidableEq

/-- Outcomes of the external attempts available to one
process_thumbnails_for_plate call. -/
structure ThumbEnv where
  alarmThumbUpload : Option UploadOk
  snapshotUpload : Option UploadOk
  cropUpload : Option UploadOk
  connectOk : Bool
  generic : List (String × Option UploadOk)
deriving DecidableEq

/-- The configuration switches the pipeline consults. -/
structure Config where
  STORE_IMAGES : Bool
  STORE_EVENT_SNAPSHOTS : Bool
  STORE_CROPPED_THUMBNAILS : Bool
  unifi_configured : Bool
deriving DecidableEq

/-- The thumbnail_results dict, abstracted to its two field groups: the six
full-scene thumbnail_* fields and the four cropped_thumbnail_* fields, each
tagged with the source that last wrote the group. -/
structure ThumbResults where
  fullScene : Option (ThumbSource × UploadOk)
  crop : Option (ThumbSource × UploadOk)
deriving DecidableEq

/-- Truthiness of the thumbnail_results dict. -/
def ThumbResults.isEmpty (r : ThumbResults) : Bool :=
  r.fullScene.isNone && r.crop.isNone

/-- Source 1: the inline base64 alarm thumbnail (data-URL form required). -/
def thumbStep1 (env : ThumbEnv) (w : Payload) : ThumbResults :=
  match w.alarm with
  | some a =>
    match a.thumbnail with
    | some td =>
      if td != "" && pyStartsWith td "data:image/" then
        match env.alarmThumbUpload with
        | some u => { fullScene := some (.alarmThumbnail, u), crop := none }
        | none => { fullScene := none, crop := none }
      else { fullScene := none, crop := none }
    | none => { fullScene := none, crop := none }
  | none => { fullScene := none, crop := none }

/-- Source 2: the event snapshot URL (runs whenever enabled and a snapshot
URL is present; a success overwrites the full-scene group). -/
def thumbStep2 (cfg : Config) (env : ThumbEnv) (pd : Enriched)
    (r : ThumbResults) : ThumbResults :=
  if cfg.STORE_EVENT_SNAPSHOTS && (pd.snapshot_url.getD "") != "" then
    match env.snapshotUpload with
    | some u => { r with fullScene := some (.eventSnapshot, u) }
    | none => r
  else r

/-- Source 3: the cropped plate thumbnail built from camera id and crop id. -/
def thumbStep3 (cfg : Config) (env : ThumbEnv) (pd : Enriched)
    (r : ThumbResults) : ThumbResults :=
  if cfg.STORE_CROPPED_THUMBNAILS && pd.cropped_id != "" && pd.camera_id != "" then
    match env.cropUpload with
    | some u => { r with crop := some (.cropUrl, u) }
    | none => r
  else r

/-- Source 4: generic NVR-client extraction, attempted only when nothing was
produced so far and the NVR connection is configured. -/
def thumbStep4 (cfg : Config) (env : ThumbEnv) (r : ThumbResults) :
    ThumbResults :=
  if r.isEmpty && cfg.unifi_configured then
    if env.connectOk then
      env.generic.foldl
        (fun acc g =>
          match g.2 with
          | some u =>
            if g.1 == "license_plate_crop" then
              { acc with crop := some (.generic g.1, u) }
            else { acc with fullScene := some (.generic g.1, u) }
          | none => acc)
        r
    else r
  else r

/-- Model of process_thumbnails_for_plate (main.py).  Returns none exactly
when the function logs a warning and returns None (no GCS client, or the
final results dict is empty). -/
def process_thumbnails_for_plate (cfg : Config) (env : ThumbEnv)
    (pd : Enriched) (w : Payload) : Option ThumbResults :=
  if ¬ cfg.STORE_IMAGES then none
  else
    let r := thumbStep4 cfg env (thumbStep3 cfg env pd
      (thumbStep2 cfg env pd (thumbStep1 env w)))
    if r.isEmpty then none else some r

/-- enriched.update(thumbnail_result): merge the field groups produced by
the thumbnail pipeline into the enriched dict. -/
def applyThumb (e : Enriched) (r : ThumbResults) : Enriched :=
  let e1 :=
    match r.fullScene with
    | some p =>
      { e with
        thumbnail_gcs_path := some p.2.gcs_path
        thumbnail_public_url := some p.2.public_url
        thumbnail_filename := some p.2.filename
        thumbnail_size_bytes := some p.2.size_bytes
        thumbnail_content_type := some p.2.content_type
        thumbnail_upload_timestamp := some p.2.upload_timestamp }
    | none => e
  match r.crop with
  | some p =>
    { e1 with
      cropped_thumbnail_gcs_path := some p.2.gcs_path
      cropped_thumbnail_public_url := some p.2.public_url
      cropped_thumbnail_filename := some p.2.filename
      cropped_thumbnail_size_bytes := some p.2.size_bytes }
  | none => e1

/-! ## The webhook driver (main.py) -/

/-- The dict returned by process_license_plate_detection, with the rows that
reached a successful BigQuery insert.  An insert failure aborts the loop;
earlier inserts remain. -/
structure ProcessOutcome where
  success : Bool
  error : Option String
  rows : List Row
  plate_numbers : List String
deriving DecidableEq

/-- The per-plate loop of process_license_plate_detection. -/
def processPlates (cfg : Config) (env : ThumbEnv) (now : CivDT) (tz : Int)
    (record_id : String) (w : Payload) :
    List PlateInfo → List Row → List String → ProcessOutcome
  | [], rows, plates =>
    { success := true, error := none, rows := rows.reverse
      plate_numbers := plates.reverse }
  | pi :: rest, rows, plates =>
    let e := enrich_individual_plate_data pi w now
    let e2 :=
      if cfg.STORE_IMAGES then
        match process_thumbnails_for_plate cfg env e w with
        | some tr => applyThumb e tr
        | none => e
      else e
    match _prepare_row_data tz record_id e2 with
    | .ok row =>
      processPlates cfg env now tz record_id w rest (row :: rows)
        (pi.plate_number :: plates)
    | .error err =>
      { success := false, error := some (pyErrStr err), rows := rows.reverse
        plate_numbers := plates.reverse }

/-- Model of process_license_plate_detection (main.py). -/
def process_license_plate_detection (cfg : Config) (env : ThumbEnv)
    (now : CivDT) (tz : Int) (record_id : String) (w : Payload) :
    ProcessOutcome :=
  match extract_plate_data w with
  | none =>
    { success := false, error := some "No valid license plate data found"
      rows := [], plate_numbers := [] }
  | some res => processPlates cfg env now tz record_id w res.license_plates [] []

/-- The JSON responses license_plate_webhook can produce on a POST with a
JSON body and no webhook-secret configured. -/
inductive WebhookResponse where
  | emptyBody
  | ok (plate_numbers : String)
  | failed (message : String)
deriving DecidableEq

/-- The HTTP status code of a response. -/
def WebhookResponse.status : WebhookResponse → Nat
  | .emptyBody => 400
  | .ok _ => 200
  | .failed _ => 500

/-- Model of license_plate_webhook (main.py) past the method and
content-type guards, for deployments without WEBHOOK_SECRET (the signature
branch is disabled then). -/
def license_plate_webhook (cfg : Config) (env : ThumbEnv) (now : CivDT)
    (tz : Int) (record_id : String) (w : Payload) : WebhookResponse :=
  if w = emptyPayload then .emptyBody
  else
    let r := process_license_plate_detection cfg env now tz record_id w
    if r.success then .ok (String.intercalate ", " r.plate_numbers)
    else .failed (r.error.getD "")

/-! ## Backfill timestamp resolution (backfill_detections.py) -/

/-- The detection_time computation of DetectionBackfiller._enrich_plate_data:
a single try block chooses the tuple timestamp when truthy, else the event
start when truthy, else now; any parse exception inside the block falls back
to now directly. -/
def backfillDetectionTime (ts es : Option String) (now : CivDT) : CivDT :=
  if strT ts then (pyFromIso (ts.getD "")).getD now
  else if strT es then (pyFromIso (es.getD "")).getD now
  else now

/-! ## Storage-key generation (gcs_client.py) -/

/-- The lowercase hex digit character for n % 16. -/
def hexDigitChar (n : Nat) : Char :=
  Char.ofNat (if n % 16 < 10 then 48 + n % 16 else 87 + n % 16)

/-- Eight lowercase hex digits of n mod 2^32. -/
def hex8 (n : Nat) : String :=
  String.mk ((List.range 8).map fun i => hexDigitChar (n / 16 ^ (7 - i)))

/-- Model of hashlib.md5(unique_data.encode()).hexdigest()[:8].  The md5
compression internals live in the Python standard library, outside this
repository; they are modelled by a concrete pure fold over the code points
producing eight hex digits.  Every claim settled against it depends only on
it being a pure function of its input, which holds for md5 and for this
model alike. -/
def md5hex8 (s : String) : String :=
  hex8 (s.data.foldl (fun a c => (a * 131 + c.toNat) % 4294967296) 5381)

/-- Model of GCSClient._generate_filename.  The fallback branch embeds a
fresh uuid4; that random draw is the explicit first argument, which the
structured branch never reads. -/
def _generate_filename (uuidDraw : String) (plate_number : String)
    (detection_timestamp : String) (event_id : String) (image_type : String) :
    String :=
  match pyFromIso detection_timestamp with
  | some d =>
    let datePath := String.mk (pad4L d.year) ++ "/" ++ String.mk (pad2L d.month)
      ++ "/" ++ String.mk (pad2L d.day)
    let timeStr := String.mk (pad2L d.hour ++ pad2L d.minute ++ pad2L d.second)
    let cleanPlate := (String.mk (plate_number.data.filter Char.isAlphanum)).toUpper
    let uniqueData := plate_number ++ "_" ++ detection_timestamp ++ "_" ++
      event_id ++ "_" ++ image_type
    datePath ++ "/" ++ cleanPlate ++ "_" ++ timeStr ++ "_" ++
      md5hex8 uniqueData ++ "_" ++ image_type ++ ".jpg"
  | none => "fallback/" ++ uuidDraw ++ "_" ++ image_type ++ ".jpg"

/-! ## Spec-side comparison definitions (refinement targets)

These two definitions follow the wording of the specification, for
comparison with the definitions above that were traced from the source. -/

/-- The classification rule as the spec words it: AlarmTrigger iff
alarm.triggers exists and is a non-empty list; else SmartDetectionThumbnail
iff type equals smart_detection; else Unrecognized. -/
def claimClassify (w : Payload) : DetectionFormat :=
  match w.alarm.bind Alarm.triggers with
  | some (_ :: _) => .alarmTrigger
  | _ =>
    if w.type.getD "" == "smart_detection" then .smartDetectionThumbnail
    else .unrecognized

/-- The numeric-timestamp rule as the claim words it: interpret as
milliseconds iff the value exceeds 9999999999, as seconds otherwise, then
normalize to the wall-clock second. -/
def claimNumericNormalize (tz v : Int) : Option String :=
  (civilFromEpoch tz (if v > 9999999999 then v.fdiv 1000 else v)).map fmtSql

/-! ## Classifier predicates for the alarm-extraction count -/

/-- A trigger that directly yields a tuple: truthy key matching the plate
filter, with a truthy value. -/
def isDirectSource (t : Trigger) : Bool :=
  (t.key.getD "") != "" &&
    (pyIn "license_plate" (t.key.getD "") || (t.key.getD "") == "vehicle") &&
    strT t.value

/-- A bare vehicle trigger: key exactly vehicle, no truthy value, truthy
eventId; it routes into the embedded sibling search. -/
def isBareVehicle (t : Trigger) : Bool :=
  (t.key.getD "") == "vehicle" && !(strT t.value) && strT t.eventId

/-- How many triggers the embedded search matches. -/
def lpValueCount (triggers : List Trigger) : Nat :=
  (triggers.filter isLpValued).length

/-! ## Concrete instances used by the claim theorems -/

/-- Configuration with image storage disabled. -/
def cfgOff : Config :=
  { STORE_IMAGES := false, STORE_EVENT_SNAPSHOTS := false,
    STORE_CROPPED_THUMBNAILS := false, unifi_configured := false }

/-- Environment in which every external attempt fails. -/
def envNone : ThumbEnv :=
  { alarmThumbUpload := none, snapshotUpload := none, cropUpload := none,
    connectOk := false, generic := [] }

/-- A reference wall-clock instant. -/
def nowRef : CivDT := ⟨2025, 9, 21, 15, 23, 36⟩

/-- An unrecognized payload: no alarm, type is a motion event. -/
def pUnrec : Payload := { emptyPayload with type := some "motion" }

/-- A payload with an empty triggers list and smart_detection type. -/
def pEmptyTriggers : Payload :=
  { emptyPayload with
    alarm := some { triggers := some [], thumbnail := none }
    type := some "smart_detection" }

/-- A direct license-plate trigger. -/
def trigLP : Trigger :=
  { key := some "license_plate_unknown", value := some "abc", timestamp := none,
    device := some "DEV1", eventId := some "E1", zones := none, group := none }

/-- A bare vehicle trigger carrying only an eventId. -/
def trigVehicle : Trigger :=
  { key := some "vehicle", value := none, timestamp := none, device := none,
    eventId := some "E2", zones := none, group := none }

/-- Alarm payload combining the two triggers above. -/
def pAlarmLPVehicle : Payload :=
  { emptyPayload with
    alarm := some { triggers := some [trigLP, trigVehicle], thumbnail := none } }

/-- A license-plate trigger whose value is whitespace only. -/
def trigWhitespace : Trigger :=
  { key := some "license_plate_unknown", value := some " ", timestamp := none,
    device := none, eventId := none, zones := none, group := none }

/-- Alarm payload carrying only the whitespace trigger. -/
def pAlarmWhitespace : Payload :=
  { emptyPayload with
    alarm := some { triggers := some [trigWhitespace], thumbnail := none } }

/-- A smart-detection vehicle thumbnail carrying a plate name. -/
def thumbVehicle : DetectedThumbnail :=
  { type := some "vehicle", name := some "7erf019", clock_best_wall := none,
    cropped_id := some "C1", attributes := none }

/-- A smart-detection payload with one plate-bearing vehicle thumbnail. -/
def pSmartOne : Payload :=
  { emptyPayload with
    type := some "smart_detection"
    metadata := some { detected_thumbnails := some [thumbVehicle] } }

/-- A plate tuple carrying its own parsable detection timestamp. -/
def piWithTs : PlateInfo :=
  { plate_number := "ABC", timestamp := .pystr "2024-01-02T03:04:05",
    device_id := some "DEV1", event_id := some "E1",
    detection_type := some "license_plate_unknown", zones := some [],
    confidence := some (Rat.divInt 95 100), group_name := none,
    cropped_id := none, vehicle_type := none, vehicle_color := none }

/-- A payload with a parsable event start timestamp. -/
def pWithEventStart : Payload :=
  { emptyPayload with
    event := some { id := some "E1", start := some (.pystr "2024-05-06T07:08:09") } }

/-- The alarm trigger of the H2F55U scenario. -/
def trigH2F : Trigger :=
  { key := some "license_plate_unknown", value := some "H2F55U",
    timestamp := some 1758350753085, device := some "ABC123",
    eventId := some "E1", zones := none, group := none }

/-- Alarm payload for the H2F55U scenario. -/
def pAlarmH2F : Payload :=
  { emptyPayload with
    alarm := some { triggers := some [trigH2F], thumbnail := none } }

/-- Config with image storage and event snapshots enabled. -/
def cfgImages : Config :=
  { STORE_IMAGES := true, STORE_EVENT_SNAPSHOTS := true,
    STORE_CROPPED_THUMBNAILS := false, unifi_configured := false }

/-- Upload result reported for the inline alarm thumbnail. -/
def upAlarm : UploadOk :=
  { gcs_path := "gs://b/a.jpg", public_url := "https://b/a.jpg",
    filename := "a.jpg", size_bytes := 100, content_type := "image/jpeg",
    upload_timestamp := "2025-09-21T15:23:36" }

/-- Upload result reported for the event snapshot download. -/
def upSnap : UploadOk :=
  { gcs_path := "gs://b/s.jpg", public_url := "https://b/s.jpg",
    filename := "s.jpg", size_bytes := 200, content_type := "image/jpeg",
    upload_timestamp := "2025-09-21T15:23:37" }

/-- Environment where both the inline thumbnail and the snapshot succeed. -/
def envBothOk : ThumbEnv :=
  { alarmThumbUpload := some upAlarm, snapshotUpload := some upSnap,
    cropUpload := none, connectOk := false, generic := [] }

/-- Payload with an inline base64 alarm thumbnail and a snapshot URL. -/
def pThumbBoth : Payload :=
  { emptyPayload with
    alarm := some
      { triggers := some [trigH2F], thumbnail := some "data:image/jpeg;base64,AAAA" }
    snapshot := some
      { url := some "https://nvr/snap.jpg", width := some 640, height := some 480 } }

/-- The enriched dict of the first plate of pThumbBoth. -/
def pdThumbBoth : Enriched :=
  enrich_individual_plate_data (directPlateInfo trigH2F) pThumbBoth nowRef

/-! # Helper lemmas -/

theorem digitVal?_digitChar (n : Nat) : digitVal? (digitChar n) = some (n % 10) := by
  have h : n % 10 = 0 ∨ n % 10 = 1 ∨ n % 10 = 2 ∨ n % 10 = 3 ∨ n % 10 = 4 ∨
      n % 10 = 5 ∨ n % 10 = 6 ∨ n % 10 = 7 ∨ n % 10 = 8 ∨ n % 10 = 9 := by omega
  rcases h with h | h | h | h | h | h | h | h | h | h <;>
    simp only [digitChar, h] <;> decide

theorem digitChar_ne_Z (n : Nat) : digitChar n ≠ 'Z' := by
  have h : n % 10 = 0 ∨ n % 10 = 1 ∨ n % 10 = 2 ∨ n % 10 = 3 ∨ n % 10 = 4 ∨
      n % 10 = 5 ∨ n % 10 = 6 ∨ n % 10 = 7 ∨ n % 10 = 8 ∨ n % 10 = 9 := by omega
  rcases h with h | h | h | h | h | h | h | h | h | h <;>
    simp only [digitChar, h] <;> decide

theorem replZ_of_not_mem {l : List Char} (h : 'Z' ∉ l) : replZ l = l := by
  induction l with
  | nil => rfl
  | cons c l ih =>
    have hc : c ≠ 'Z' := fun hc => h (hc ▸ List.mem_cons_self c l)
    have hl : 'Z' ∉ l := fun hl => h (List.mem_cons_of_mem c hl)
    simp [replZ, List.flatMap_cons] at ih ⊢
    simp [hc, ih hl]

theorem daysInMonth_le (y m : Nat) : daysInMonth y m ≤ 31 := by
  unfold daysInMonth
  repeat' split
  all_goals omega

theorem pyFromIso_isoFormat (d : CivDT) (h : ValidDT d) :
    pyFromIso (isoFormat d) = some d := by
  obtain ⟨hy1, hy2, hm1, hm2, hd1, hd2, hh, hmi, hs⟩ := h
  have hd31 := daysInMonth_le d.year d.month
  have hz : 'Z' ∉ (pad4L d.year ++ '-' :: pad2L d.month ++ '-' :: pad2L d.day ++
      'T' :: pad2L d.hour ++ ':' :: pad2L d.minute ++ ':' :: pad2L d.second) := by
    simp only [pad4L, pad2L, List.mem_append, List.mem_cons, List.mem_singleton,
      List.not_mem_nil, or_false]
    push_neg
    repeat' apply And.intro
    all_goals first
      | exact fun hc => digitChar_ne_Z _ hc.symm
      | decide
  unfold pyFromIso isoFormat
  rw [show (String.mk (pad4L d.year ++ '-' :: pad2L d.month ++ '-' :: pad2L d.day ++
      'T' :: pad2L d.hour ++ ':' :: pad2L d.minute ++ ':' :: pad2L d.second)).data =
      (pad4L d.year ++ '-' :: pad2L d.month ++ '-' :: pad2L d.day ++
      'T' :: pad2L d.hour ++ ':' :: pad2L d.minute ++ ':' :: pad2L d.second) from rfl]
  rw [replZ_of_not_mem hz]
  have ey : 1000 * (d.year / 1000 % 10) + 100 * (d.year / 100 % 10) +
      10 * (d.year / 10 % 10) + d.year % 10 = d.year := by omega
  have em : 10 * (d.month / 10 % 10) + d.month % 10 = d.month := by omega
  have ed : 10 * (d.day / 10 % 10) + d.day % 10 = d.day := by omega
  have eh : 10 * (d.hour / 10 % 10) + d.hour % 10 = d.hour := by omega
  have emi : 10 * (d.minute / 10 % 10) + d.minute % 10 = d.minute := by omega
  have es : 10 * (d.second / 10 % 10) + d.second % 10 = d.second := by omega
  simp only [pad4L, pad2L, List.cons_append, List.nil_append]
  simp [fromIsoList, parseTimePart, digitVal?_digitChar,
    show acceptTail [] = true from by decide, ey, em, ed, eh, emi, es]
  exact ⟨hy1, hy2, hm1, hm2, hd1, hd2, hh, hmi, hs⟩

/-! # Claim C1 -/

/-- Claim C1, counterexample: the payload pUnrec is classified Unrecognized
and produces zero records, but the webhook caller receives a 500 error
response, not the non-error response the claim asserts. -/
theorem c1_counterexample :
    classifyFormat pUnrec = .unrecognized ∧
    (process_license_plate_detection cfgOff envNone nowRef 0 "r" pUnrec).rows = [] ∧
    license_plate_webhook cfgOff envNone nowRef 0 "r" pUnrec =
      .failed "No valid license plate data found" ∧
    (license_plate_webhook cfgOff envNone nowRef 0 "r" pUnrec).status = 500 := by
  decide

/-- Claim C1 as amended: every non-empty payload classified Unrecognized
produces zero detection records, and the webhook caller receives a 500
error response carrying the message No valid license plate data found. -/
theorem c1_unrecognized_response (cfg : Config) (env : ThumbEnv) (now : CivDT)
    (tz : Int) (rid : String) (w : Payload) (hne : w ≠ emptyPayload)
    (hw : classifyFormat w = .unrecognized) :
    process_license_plate_detection cfg env now tz rid w =
      { success := false, error := some "No valid license plate data found",
        rows := [], plate_numbers := [] } ∧
    license_plate_webhook cfg env now tz rid w =
      .failed "No valid license plate data found" := by
  have h1 : extract_plate_data w = none := by
    unfold extract_plate_data; rw [hw]
  refine ⟨?_, ?_⟩
  · unfold process_license_plate_detection; rw [h1]
  · simp [license_plate_webhook, process_license_plate_detection, h1, hne]

/-- Claim C1 witness: the amended statement applied to pUnrec. -/
theorem c1_witness :
    pUnrec ≠ emptyPayload ∧ classifyFormat pUnrec = .unrecognized ∧
    license_plate_webhook cfgOff envNone nowRef 0 "r" pUnrec =
      .failed "No valid license plate data found" :=
  ⟨by decide, by decide,
    (c1_unrecognized_response cfgOff envNone nowRef 0 "r" pUnrec (by decide)
      (by decide)).2⟩

/-! # Claim C2 -/

/-- Claim C2, counterexample: a payload with an empty alarm.triggers list
and top-level type smart_detection is classified AlarmTrigger, not
SmartDetectionThumbnail as the claim asserts, and yields no records. -/
theorem c2_counterexample :
    classifyFormat pEmptyTriggers = .alarmTrigger ∧
    classifyFormat pEmptyTriggers ≠ .smartDetectionThumbnail ∧
    claimClassify pEmptyTriggers = .smartDetectionThumbnail ∧
    extract_plate_data pEmptyTriggers = none := by
  decide

/-- Claim C2 as amended: classification agrees with the claimed priority
rule except that a present-but-empty triggers list already selects
AlarmTrigger (the code checks key existence, not non-emptiness). -/
theorem c2_classify_characterization (w : Payload) :
    classifyFormat w =
      if w.alarm.bind Alarm.triggers = some [] then .alarmTrigger
      else claimClassify w := by
  cases hal : w.alarm with
  | none => simp [classifyFormat, claimClassify, hal]
  | some a =>
    cases htr : a.triggers with
    | none => simp [classifyFormat, claimClassify, hal, htr]
    | some l =>
      cases l with
      | nil => simp [classifyFormat, claimClassify, hal, htr]
      | cons x xs => simp [classifyFormat, claimClassify, hal, htr]

/-! # Claim C9 -/

/-- Claim C9, counterexample: with an unparsable detection timestamp the
storage key embeds the fresh uuid4 draw, so two calls with identical
(plateNumber, detectionTimestamp, eventId, imageType) yield different keys. -/
theorem c9_counterexample :
    _generate_filename "aaaa" "ABC123" "not-a-timestamp" "E1" "event_snapshot" ≠
      _generate_filename "bbbb" "ABC123" "not-a-timestamp" "E1" "event_snapshot" := by
  decide

/-- Claim C9 as amended: key generation is deterministic (independent of the
uuid draw) whenever the detection timestamp parses; the fallback for an
unparsable timestamp embeds the random draw. -/
theorem c9_deterministic_when_parsable (u1 u2 plate ts event itype : String)
    (h : (pyFromIso ts).isSome) :
    _generate_filename u1 plate ts event itype =
      _generate_filename u2 plate ts event itype := by
  cases hp : pyFromIso ts with
  | none => rw [hp] at h; simp at h
  | some d => simp only [_generate_filename, hp]

/-- Claim C9 witness: the amended statement applied to a parsable timestamp. -/
theorem c9_witness :
    (pyFromIso "2025-09-21T15:23:36").isSome ∧
    _generate_filename "aaaa" "ABC123" "2025-09-21T15:23:36" "E1" "x" =
      _generate_filename "bbbb" "ABC123" "2025-09-21T15:23:36" "E1" "x" :=
  ⟨by decide,
    c9_deterministic_when_parsable "aaaa" "bbbb" "ABC123" "2025-09-21T15:23:36"
      "E1" "x" (by decide)⟩

/-! # Claim C10 -/

/-- Claim C10, counterexample: the numeric value 0 is falsy, so the
normalizer returns None for it instead of the seconds interpretation
1970-01-01 00:00:00 that the claim prescribes for every numeric value. -/
theorem c10_counterexample :
    _parse_timestamp 0 (.pyint 0) = none ∧
    claimNumericNormalize 0 0 = some "1970-01-01 00:00:00" ∧
    _parse_timestamp 0 (.pyint 0) ≠ claimNumericNormalize 0 0 := by
  decide

/-- Claim C10 as amended: every nonzero numeric timestamp is normalized by
the claimed rule (milliseconds iff the value exceeds 9999999999, seconds
otherwise, unrepresentable results becoming None), and the two scenario
inputs normalize identically under every timezone offset. -/
theorem c10_numeric_threshold :
    (∀ tz v : Int, v ≠ 0 →
      _parse_timestamp tz (.pyint v) = claimNumericNormalize tz v) ∧
    (∀ tz : Int, _parse_timestamp tz (.pyint 1758468216321) =
      _parse_timestamp tz (.pyint 1758468216)) := by
  constructor
  · intro tz v hv
    simp [_parse_timestamp, PyTime.truthy, claimNumericNormalize, hv]
  · intro tz
    have hfd : (1758468216321 : Int).fdiv 1000 = 1758468216 := by decide
    simp [_parse_timestamp, PyTime.truthy, hfd]

/-- Claim C10 witness: the amended statement applied to the scenario input. -/
theorem c10_witness :
    (1758468216 : Int) ≠ 0 ∧
    _parse_timestamp 0 (.pyint 1758468216) = claimNumericNormalize 0 1758468216 :=
  ⟨by decide, c10_numeric_threshold.1 0 1758468216 (by decide)⟩

/-! # Claim C3 -/

theorem filter_ne_filter {α : Type} [DecidableEq α] (l : List α) (t : α)
    (p : α → Bool) (hp : p t = false) :
    ((l.filter fun o => o ≠ t).filter p).length = (l.filter p).length := by
  rw [List.filter_filter]
  have h : ∀ a ∈ l, (p a && decide (a ≠ t)) = p a := by
    intro a _
    cases hpa : p a with
    | false => simp
    | true =>
      have : a ≠ t := fun he => by rw [he, hp] at hpa; cases hpa
      simp [this]
  rw [List.filter_congr h]

theorem direct_bare_disjoint (t : Trigger) :
    isDirectSource t = true → isBareVehicle t = true → False := by
  unfold isDirectSource isBareVehicle
  intro h1 h2
  simp only [Bool.and_eq_true, Bool.not_eq_true'] at h1 h2
  rw [h1.2] at h2
  cases h2.1.2

theorem alarmContrib_length (triggers : List Trigger) (t : Trigger) :
    (alarmContrib triggers t).length =
      if isDirectSource t then 1
      else if isBareVehicle t then lpValueCount triggers else 0 := by
  have hfil : strT t.value = false →
      ((triggers.filter fun o => o ≠ t).filter isLpValued).length =
        lpValueCount triggers := by
    intro hC
    exact filter_ne_filter triggers t isLpValued
      (by unfold isLpValued; rw [hC, Bool.and_false])
  unfold alarmContrib embeddedPlates isDirectSource isBareVehicle
  cases hA : ((t.key.getD "") != "") <;>
    cases hB : pyIn "license_plate" (t.key.getD "") <;>
    cases hE : ((t.key.getD "") == "vehicle") <;>
    cases hC : strT t.value <;>
    cases hD : strT t.eventId <;>
    simp_all [lpValueCount]

theorem contribSum (triggers : List Trigger) :
    ∀ l : List Trigger,
      (l.map fun t => (alarmContrib triggers t).length).sum =
        (l.filter isDirectSource).length +
          (l.filter isBareVehicle).length * lpValueCount triggers := by
  intro l
  induction l with
  | nil => simp
  | cons x xs ih =>
    rw [List.map_cons, List.sum_cons, alarmContrib_length triggers x, ih,
      List.filter_cons, List.filter_cons]
    by_cases hx : isDirectSource x = true
    · have hb : isBareVehicle x = false := by
        cases hbx : isBareVehicle x with
        | false => rfl
        | true => exact absurd (direct_bare_disjoint x hx hbx) not_false
      simp [hx, hb]
      omega
    · rw [Bool.not_eq_true] at hx
      by_cases hbx : isBareVehicle x = true
      · simp [hx, hbx, Nat.add_mul]
        omega
      · rw [Bool.not_eq_true] at hbx
        simp [hx, hbx]

/-- Claim C3, counterexample: an alarm carrying one license_plate trigger
with value abc and one bare vehicle trigger produces two tuples for that one
trigger (the direct tuple and a duplicate through the embedded sibling
search), not exactly one as the claim asserts. -/
theorem c3_counterexample :
    extract_plate_data pAlarmLPVehicle = some
      { license_plates := [directPlateInfo trigLP,
          embeddedPlateInfo trigVehicle trigLP]
        total_plates := 2 } ∧
    (directPlateInfo trigLP).plate_number = "ABC" ∧
    (embeddedPlateInfo trigVehicle trigLP).plate_number = "ABC" ∧
    (alarmPlatesList [trigLP, trigVehicle]).length ≠ 1 := by
  decide

/-- Claim C3 as amended: a trigger whose key matches the plate filter and
whose value is non-empty contributes exactly its one direct tuple; but each
bare vehicle trigger (key vehicle, empty value, non-empty eventId) adds one
further tuple per sibling trigger with a license_plate key and non-empty
value, so the total count is directs + bares * siblings. -/
theorem c3_extraction_count (triggers : List Trigger) :
    (alarmPlatesList triggers).length =
      (triggers.filter isDirectSource).length +
        (triggers.filter isBareVehicle).length * lpValueCount triggers ∧
    ∀ t ∈ triggers, isDirectSource t = true →
      alarmContrib triggers t = [directPlateInfo t] := by
  constructor
  · unfold alarmPlatesList
    rw [List.length_flatMap]
    have : List.map (List.length ∘ alarmContrib triggers) triggers =
        List.map (fun t => (alarmContrib triggers t).length) triggers := rfl
    rw [this, contribSum triggers triggers]
  · intro t _ hd
    unfold isDirectSource at hd
    simp only [Bool.and_eq_true] at hd
    unfold alarmContrib
    rw [if_pos (by rw [hd.1.1, hd.1.2]; rfl), if_pos hd.2]

/-- Claim C3 witness: the amended statement applied to the two-trigger
alarm. -/
theorem c3_witness :
    alarmContrib [trigLP, trigVehicle] trigLP = [directPlateInfo trigLP] :=
  (c3_extraction_count [trigLP, trigVehicle]).2 trigLP (by decide) (by decide)

/-! # Claim C4 -/

/-- Claim C4, counterexample: a license_plate trigger whose value is a
single space is not discarded; it yields a tuple whose normalized plate text
is empty, and that tuple is enriched (propagated downstream) with the empty
plate number. -/
theorem c4_counterexample :
    extract_plate_data pAlarmWhitespace = some
      { license_plates := [directPlateInfo trigWhitespace], total_plates := 1 } ∧
    (directPlateInfo trigWhitespace).plate_number = "" ∧
    (enrich_individual_plate_data (directPlateInfo trigWhitespace)
      pAlarmWhitespace nowRef).plate_number = "" := by
  decide

/-- Claim C4 as amended: every produced tuple comes from a source whose raw
text is non-empty (the emptiness test runs on the raw value, before
normalization), so a whitespace-only raw value passes the test and produces
a tuple with empty normalized text. -/
theorem c4_raw_nonempty (w : Payload) (r : ExtractResult) (pi : PlateInfo)
    (hw : extract_plate_data w = some r) (hpi : pi ∈ r.license_plates) :
    ∃ raw : String, raw ≠ "" ∧ pi.plate_number = pyNormalize raw := by
  unfold extract_plate_data at hw
  cases hcf : classifyFormat w with
  | unrecognized => rw [hcf] at hw; cases hw
  | alarmTrigger =>
    rw [hcf] at hw
    simp only [_extract_plate_data_from_alarm] at hw
    split at hw
    · cases hw
    · split at hw
      · cases hw
      · rw [Option.some.injEq] at hw
        rw [← hw] at hpi
        simp only at hpi
        unfold alarmPlatesList at hpi
        rw [List.mem_flatMap] at hpi
        obtain ⟨t, _, hmem⟩ := hpi
        simp only [alarmContrib] at hmem
        by_cases hA : (t.key.getD "" != "" &&
            (pyIn "license_plate" (t.key.getD "") || t.key.getD "" == "vehicle")) = true
        · rw [if_pos hA] at hmem
          by_cases hC : strT t.value = true
          · rw [if_pos hC] at hmem
            rw [List.mem_singleton] at hmem
            subst hmem
            exact ⟨t.value.getD "", by simpa [strT] using hC, rfl⟩
          · rw [if_neg hC] at hmem
            by_cases hDE : (strT t.eventId && t.key.getD "" == "vehicle") = true
            · rw [if_pos hDE] at hmem
              unfold embeddedPlates at hmem
              rw [List.mem_map] at hmem
              obtain ⟨o, ho, hpi2⟩ := hmem
              rw [List.mem_filter] at ho
              have hlp := ho.2
              unfold isLpValued at hlp
              rw [Bool.and_eq_true] at hlp
              subst hpi2
              exact ⟨o.value.getD "", by simpa [strT] using hlp.2, rfl⟩
            · rw [if_neg hDE] at hmem
              simp at hmem
        · rw [if_neg hA] at hmem
          simp at hmem
  | smartDetectionThumbnail =>
    rw [hcf] at hw
    simp only [_extract_plate_data_from_smart_detection] at hw
    split at hw
    · cases hw
    · split at hw
      · cases hw
      · split at hw
        · cases hw
        · rw [Option.some.injEq] at hw
          rw [← hw] at hpi
          simp only at hpi
          rw [List.mem_filterMap] at hpi
          obtain ⟨th, _, hth⟩ := hpi
          unfold smartPlateInfo? at hth
          by_cases hcond : (th.type == some "vehicle" && strT th.name) = true
          · rw [if_pos hcond] at hth
            rw [Option.some.injEq] at hth
            subst hth
            rw [Bool.and_eq_true] at hcond
            exact ⟨th.name.getD "", by simpa [strT] using hcond.2, rfl⟩
          · rw [if_neg hcond] at hth
            cases hth

/-- Claim C4 witness: the amended statement applied to the H2F55U alarm. -/
theorem c4_witness :
    ∃ raw : String, raw ≠ "" ∧
      (directPlateInfo trigH2F).plate_number = pyNormalize raw :=
  c4_raw_nonempty pAlarmH2F
    { license_plates := [directPlateInfo trigH2F], total_plates := 1 }
    (directPlateInfo trigH2F) (by decide) (by decide)

/-! # Claim C5 -/

/-- Claim C5 (code bug, evaluated at the failing input): the smart-detection
extractor stores confidence None, the enricher copies it (its 0.95 default
is dead because the key is present), and the sink writer applies float() to
it, so the TypeError aborts the write: no record with confidence 0.95 is
ever produced, and the webhook answers 500. -/
theorem c5_smart_confidence_crash :
    (extract_plate_data pSmartOne).map
        (fun r => r.license_plates.map PlateInfo.confidence) = some [none] ∧
    process_license_plate_detection cfgOff envNone nowRef 0 "r" pSmartOne =
      { success := false, error := some (pyErrStr .floatOfNone), rows := [],
        plate_numbers := [] } ∧
    (license_plate_webhook cfgOff envNone nowRef 0 "r" pSmartOne).status = 500 := by
  decide

/-! # Claim C7 -/

/-- Claim C7 (code bug, evaluated at the failing input): the enricher stores
the serialized payload under raw_detection_data, but the sink writer reads
the absent key raw_detection, so every persisted row carries the string
rendering of the empty dict instead of the payload. -/
theorem c7_raw_detection_lost :
    (process_license_plate_detection cfgOff envNone nowRef 0 "r" pAlarmH2F).success
      = true ∧
    (process_license_plate_detection cfgOff envNone nowRef 0 "r" pAlarmH2F).rows.map
        Row.raw_detection_data = ["\x7b\x7d"] ∧
    (enrich_individual_plate_data (directPlateInfo trigH2F) pAlarmH2F
        nowRef).raw_detection_data = json_dumps pAlarmH2F ∧
    json_dumps pAlarmH2F ≠ "\x7b\x7d" := by
  decide

/-! # Claim C6 -/

theorem isoFormat_ne_empty (d : CivDT) : isoFormat d ≠ "" := by
  unfold isoFormat pad4L
  intro h
  have h2 := congrArg String.data h
  simp at h2

/-- Claim C6, counterexample: a tuple carrying a parsable timestamp is
enriched on the webhook path with the current wall-clock time; the persisted
detection_timestamp is the wall clock, not the tuple timestamp the claimed
fallback chain prescribes. -/
theorem c6_counterexample :
    piWithTs.timestamp = .pystr "2024-01-02T03:04:05" ∧
    pyFromIso "2024-01-02T03:04:05" = some ⟨2024, 1, 2, 3, 4, 5⟩ ∧
    (enrich_individual_plate_data piWithTs pWithEventStart nowRef).detection_timestamp
      = isoFormat nowRef ∧
    ((_prepare_row_data 0 "r"
        (enrich_individual_plate_data piWithTs pWithEventStart nowRef)).toOption.map
      Row.detection_timestamp) = some (some "2025-09-21 15:23:36") ∧
    (some "2025-09-21 15:23:36" : Option String) ≠ some "2024-01-02 03:04:05" := by
  decide

/-- Claim C6 as amended: detectionTimestamp is never null, but the claimed
chain only lives on the backfill path, and there a present-but-unparsable
tuple timestamp falls directly to wall clock, skipping the event start.  On
the webhook path the enricher always stores the current wall-clock time,
the thumbnail merge never touches it, and the sink writer persists exactly
that instant. -/
theorem c6_detection_timestamp_total :
    (∀ (pi : PlateInfo) (w : Payload) (now : CivDT),
      (enrich_individual_plate_data pi w now).detection_timestamp = isoFormat now) ∧
    (∀ (e : Enriched) (tr : ThumbResults),
      (applyThumb e tr).detection_timestamp = e.detection_timestamp) ∧
    (∀ (e : Enriched) (now : CivDT) (tz : Int) (rid : String) (row : Row),
      ValidDT now → e.detection_timestamp = isoFormat now →
      _prepare_row_data tz rid e = .ok row →
      row.detection_timestamp = some (fmtSql now)) ∧
    (∀ (ts es : Option String) (now d : CivDT), strT ts = true →
      pyFromIso (ts.getD "") = some d → backfillDetectionTime ts es now = d) ∧
    (∀ (ts es : Option String) (now : CivDT), strT ts = true →
      pyFromIso (ts.getD "") = none → backfillDetectionTime ts es now = now) ∧
    (∀ (ts es : Option String) (now d : CivDT), strT ts = false → strT es = true →
      pyFromIso (es.getD "") = some d → backfillDetectionTime ts es now = d) ∧
    (∀ (ts es : Option String) (now : CivDT), strT ts = false → strT es = false →
      backfillDetectionTime ts es now = now) ∧
    (∀ (tz : Int) (d : CivDT), _parse_timestamp tz (.pydt d) = some (fmtSql d)) := by
  refine ⟨fun pi w now => rfl, ?_, ?_, ?_, ?_, ?_, ?_, ?_⟩
  · intro e tr
    rcases tr with ⟨fs, cr⟩
    cases fs <;> cases cr <;> rfl
  · intro e now tz rid row hv he hrow
    unfold _prepare_row_data at hrow
    cases hcf : pyFloat e.confidence with
    | error err => rw [hcf] at hrow; cases hrow
    | ok c =>
      rw [hcf] at hrow
      rw [Except.ok.injEq] at hrow
      rw [← hrow]
      simp only [he]
      unfold _parse_timestamp
      have ht : (PyTime.pystr (isoFormat now)).truthy = true := by
        simp [PyTime.truthy, bne_iff_ne, isoFormat_ne_empty now]
      rw [if_neg (not_not_intro ht)]
      simp only [pyFromIso_isoFormat now hv]
      rfl
  · intro ts es now d hts hp
    unfold backfillDetectionTime
    rw [if_pos hts, hp]
    rfl
  · intro ts es now hts hp
    unfold backfillDetectionTime
    rw [if_pos hts, hp]
    rfl
  · intro ts es now d hts hes hp
    unfold backfillDetectionTime
    rw [if_neg (by rw [hts]; exact Bool.false_ne_true), if_pos hes, hp]
    rfl
  · intro ts es now hts hes
    unfold backfillDetectionTime
    rw [if_neg (by rw [hts]; exact Bool.false_ne_true),
      if_neg (by rw [hes]; exact Bool.false_ne_true)]
  · intro tz d
    simp [_parse_timestamp, PyTime.truthy]

/-- Claim C6 witness: the amended statement applied at concrete inputs on
both paths. -/
theorem c6_witness :
    ValidDT nowRef ∧
    backfillDetectionTime (some "garbage") (some "2024-05-06T07:08:09") nowRef
      = nowRef ∧
    ((_prepare_row_data 0 "r" (enrich_individual_plate_data
        (directPlateInfo trigH2F) pAlarmH2F nowRef)).toOption.map
      Row.detection_timestamp) = some (some (fmtSql nowRef)) := by
  refine ⟨by decide, ?_, ?_⟩
  · exact c6_detection_timestamp_total.2.2.2.2.1 (some "garbage")
      (some "2024-05-06T07:08:09") nowRef (by decide) (by decide)
  · cases hpr : _prepare_row_data 0 "r" (enrich_individual_plate_data
        (directPlateInfo trigH2F) pAlarmH2F nowRef) with
    | error err =>
      have hok : (_prepare_row_data 0 "r" (enrich_individual_plate_data
          (directPlateInfo trigH2F) pAlarmH2F nowRef)).toOption.isSome = true := by
        decide
      rw [hpr] at hok
      simp [Except.toOption] at hok
    | ok row =>
      simp only [Except.toOption]
      exact congrArg some (c6_detection_timestamp_total.2.2.1 _ nowRef 0 "r" row
        (by decide) (by decide) hpr)

/-! # Claim C8 -/

theorem thumbStep3_fullScene (cfg : Config) (env : ThumbEnv) (pd : Enriched)
    (r : ThumbResults) : (thumbStep3 cfg env pd r).fullScene = r.fullScene := by
  unfold thumbStep3
  split
  · cases h : env.cropUpload <;> simp [h]
  · rfl

theorem thumbStep4_of_not_isEmpty (cfg : Config) (env : ThumbEnv)
    (r : ThumbResults) (h : r.isEmpty = false) : thumbStep4 cfg env r = r := by
  unfold thumbStep4
  rw [h]
  simp

/-- Claim C8, counterexample: the inline base64 thumbnail succeeds and fills
the full-scene slot, yet a later successful event-snapshot download
overwrites it: the final full-scene artifact comes from the event snapshot,
contradicting the claimed first-success-wins rule for the slot. -/
theorem c8_counterexample :
    (thumbStep1 envBothOk pThumbBoth).fullScene = some (.alarmThumbnail, upAlarm) ∧
    process_thumbnails_for_plate cfgImages envBothOk pdThumbBoth pThumbBoth =
      some { fullScene := some (.eventSnapshot, upSnap), crop := none } ∧
    (some ((ThumbSource.eventSnapshot), upSnap)) ≠
      some ((ThumbSource.alarmThumbnail), upAlarm) := by
  decide

/-- Claim C8 as amended: the sources run in the fixed order 1-4, but the
event-snapshot source is attempted whenever enabled and a snapshot URL is
present, and on success it overwrites the full-scene slot even when the
inline base64 source already filled it; only the generic NVR-client source
is guarded by the absence of any prior artifact. -/
theorem c8_thumbnail_priority :
    (∀ (cfg : Config) (env : ThumbEnv) (pd : Enriched) (w : Payload)
        (u1 u2 : UploadOk),
      cfg.STORE_IMAGES = true → cfg.STORE_EVENT_SNAPSHOTS = true →
      env.snapshotUpload = some u2 → (pd.snapshot_url.getD "") ≠ "" →
      (thumbStep1 env w).fullScene = some (.alarmThumbnail, u1) →
      ∃ r, process_thumbnails_for_plate cfg env pd w = some r ∧
        r.fullScene = some (.eventSnapshot, u2)) ∧
    (∀ (cfg : Config) (env : ThumbEnv) (pd : Enriched) (w : Payload)
        (g : List (String × Option UploadOk)) (c : Bool),
      (thumbStep3 cfg env pd (thumbStep2 cfg env pd (thumbStep1 env w))).isEmpty
        = false →
      process_thumbnails_for_plate cfg { env with generic := g, connectOk := c }
        pd w = process_thumbnails_for_plate cfg env pd w) := by
  constructor
  · intro cfg env pd w u1 u2 hsi hses hsu hurl _
    unfold process_thumbnails_for_plate
    rw [hsi]
    have h2 : (thumbStep2 cfg env pd (thumbStep1 env w)).fullScene =
        some (.eventSnapshot, u2) := by
      unfold thumbStep2
      rw [if_pos (by rw [hses]; simp [bne_iff_ne, hurl]), hsu]
    have h3 : (thumbStep3 cfg env pd (thumbStep2 cfg env pd
        (thumbStep1 env w))).fullScene = some (.eventSnapshot, u2) := by
      rw [thumbStep3_fullScene, h2]
    have hne : (thumbStep3 cfg env pd (thumbStep2 cfg env pd
        (thumbStep1 env w))).isEmpty = false := by
      unfold ThumbResults.isEmpty
      rw [h3]
      rfl
    rw [thumbStep4_of_not_isEmpty cfg env _ hne]
    simp only [hne]
    exact ⟨_, by simp, h3⟩
  · intro cfg env pd w g c h3ne
    unfold process_thumbnails_for_plate
    by_cases hsi : cfg.STORE_IMAGES = true
    · rw [hsi]
      have hsame : thumbStep3 cfg { env with generic := g, connectOk := c } pd
          (thumbStep2 cfg { env with generic := g, connectOk := c } pd
            (thumbStep1 { env with generic := g, connectOk := c } w)) =
          thumbStep3 cfg env pd (thumbStep2 cfg env pd (thumbStep1 env w)) := rfl
      rw [hsame, thumbStep4_of_not_isEmpty cfg _ _ h3ne,
        thumbStep4_of_not_isEmpty cfg env _ h3ne]
    · rw [Bool.not_eq_true] at hsi
      rw [hsi]
      rfl

/-- Claim C8 witness: the amended statement applied to the overwrite
scenario. -/
theorem c8_witness :
    ∃ r, process_thumbnails_for_plate cfgImages envBothOk pdThumbBoth pThumbBoth
      = some r ∧ r.fullScene = some (.eventSnapshot, upSnap) :=
  c8_thumbnail_priority.1 cfgImages envBothOk pdThumbBoth pThumbBoth upAlarm
    upSnap (by decide) (by decide) (by decide) (by decide) (by decide)

end MenloOaks
